import Mathlib

/-!
Shallow embedding of the UnlimitedChatGPTWebAPI repository
(src/UnlimitedChatGPTWebAPI/data.py and src/UnlimitedChatGPTWebAPI/session.py)
and a verification of the frozen claims about it.

Modelling conventions:
* Python `time.time()` is modelled as an integer clock `now : Int`
  (only order comparisons against the stored `expires` matter).
* Python truthiness of optional strings (`None` and `""` are falsy) is
  modelled by `truthyStr`.
* Playwright `JSHandle`s are modelled by the data they give access to:
  a response handle by its body bytes (`List Nat`), an `AbortController`
  handle by `Unit`.
* `asyncio` code is modelled by explicit state passing and by outcome
  values describing what the external browser environment did; a raised
  Python exception is an `Except.error`.
-/

namespace UnlimitedChat

/-- Python truthiness of an optional string: `None` and `""` are falsy,
every other string is truthy. -/
def truthyStr : Option String → Bool
  | none => false
  | some s => s != ""

/-- Python `dict` lookup (`d.get(k)` / `k in d`): first binding wins;
Python dict keys are unique, so on well-formed states this is exactly
dict access. -/
def lookupKey {β : Type} (k : String) : List (String × β) → Option β
  | [] => none
  | p :: t => if p.1 = k then some p.2 else lookupKey k t

/-- Python `str.startswith`. -/
def pyStartsWith (s pat : String) : Bool := pat.data.isPrefixOf s.data

/-- Python `str.endswith`. -/
def pyEndsWith (s pat : String) : Bool := pat.data.isSuffixOf s.data

/-- Occurrence test on character lists, used to model Python `pat in s`. -/
def strContainsAux (pat : List Char) : List Char → Bool
  | [] => pat.isEmpty
  | c :: t => pat.isPrefixOf (c :: t) || strContainsAux pat t

/-- Python `pat in s` on strings. -/
def strContains (s pat : String) : Bool := strContainsAux pat.data s.data

/-! ## data.py: AsyncStreamIterator (lines 21-53)

One chunk iteration over a `StreamResponse` body.  Each `__anext__` call
awaits `self.read()` under `asyncio.wait_for(..., timeout)`.  The
behaviour of the environment on each pull is modelled by a `ReadEvent`:
* `chunk d`  – `reader.read()` produced data `d` with `done = False`;
* `done`     – `reader.read()` reported `done = True`;
* `readError` – the `reader.evaluate` call raised a playwright `Error`;
  `read` catches it and returns `{"done": True, "value": None}`
  (data.py lines 39-40), so it joins the `done` path;
* `timeout`  – nothing arrived within `timeout` seconds and
  `asyncio.wait_for` raised `asyncio.TimeoutError`.
-/

inductive ReadEvent where
  | chunk (data : List Nat)
  | done
  | readError
  | timeout
deriving DecidableEq

/-- Run a full chunk iteration (data.py `__anext__`, lines 43-53) over the
sequence of read events the environment produces.  Returns
`(yielded chunks, dispose count, terminated normally)` where the dispose
count is the number of times the `done` branch disposed the pair of
response/reader handles (the `isinstance(self.response, JSHandle)` guard
is true for every handle produced by `iter_chunked`), and "terminated
normally" means the iteration ended by `StopAsyncIteration` rather than by
an escaping exception. -/
def runIter : List ReadEvent → List (List Nat) × Nat × Bool
  | [] => ([], 0, false)
  | ReadEvent.chunk d :: rest =>
      let r := runIter rest
      (d :: r.1, r.2.1, r.2.2)
  | ReadEvent.done :: _ => ([], 1, true)
  | ReadEvent.readError :: _ => ([], 1, true)
  | ReadEvent.timeout :: _ => ([], 0, true)

/-! ## data.py: StreamResponse (lines 56-125) -/

/-- Embeds `StreamResponse` (data.py lines 56-69).  The `controller` and
`response` JSHandles are optional exactly as in the source (both default
to `None`); a present response handle is modelled by the body bytes it
gives access to. -/
structure StreamResponse where
  status : Nat
  headers : List (String × String)
  controller : Option Unit
  response : Option (List Nat)
deriving DecidableEq

/-- Embeds `StreamResponse.read` (data.py lines 71-79): returns the whole body,
or raises `StreamResponseException("Cannot read, response is None")` when
there is no response handle.  A raised exception is an `Except.error`
carrying the exception message. -/
def StreamResponse.read (r : StreamResponse) : Except String (List Nat) :=
  match r.response with
  | some body => Except.ok body
  | none => Except.error "Cannot read, response is None"

/-- Byte-list decoding used by `text`.  The exact character decoding is
irrelevant to every claim; what matters is that `text` fails exactly when
`read` fails. -/
def decodeBytes (b : List Nat) : String := String.mk (b.map Char.ofNat)

/-- Embeds `StreamResponse.text` (data.py lines 81-83): decodes the payload read
by `read`; raises whenever `read` raises. -/
def StreamResponse.text (r : StreamResponse) : Except String String :=
  (r.read).map decodeBytes

/-- Embeds `StreamResponse.json` (data.py lines 85-87): `json.loads` applied to
`text()`.  The JSON parse itself is not modelled (no claim depends on the
parse result); `json` raises whenever `text` raises. -/
def StreamResponse.json (r : StreamResponse) : Except String String :=
  r.text

/-- Embeds `StreamResponse.stop` (data.py lines 89-95): aborts via the controller
handle, or raises `StreamResponseException("controller is None")`. -/
def StreamResponse.stop (r : StreamResponse) : Except String Unit :=
  match r.controller with
  | some _ => Except.ok ()
  | none => Except.error "controller is None"

/-- Embeds `StreamResponse.iter_chunked` (data.py lines 97-102): returns an
iterator over the response handle, or raises
`StreamResponseException("response is None")`.  The iterator is modelled
by the body the response handle gives access to. -/
def StreamResponse.iter_chunked (r : StreamResponse) : Except String (List Nat) :=
  match r.response with
  | some body => Except.ok body
  | none => Except.error "response is None"

/-- Claim C6, counterexample.  The claim says that a per-chunk read
timeout terminates the iteration normally AND disposes the underlying
handles exactly once.  At the concrete input `[timeout]` (no data arrives
within the configured timeout on the first pull), the code terminates the
iteration normally but disposes the handles zero times, not once: the
`except asyncio.TimeoutError` branch (data.py lines 52-53) raises
`StopAsyncIteration` without any dispose call. -/
theorem C6_counterexample :
    runIter [ReadEvent.timeout] = ([], 0, true) ∧
      (runIter [ReadEvent.timeout]).2.1 ≠ 1 := by
  decide

/-- Claim C6, amended: both a per-chunk read timeout and an end-of-stream
signal (including a read error, which the source folds into the
end-of-stream path) terminate the iteration normally, and the underlying
handles are disposed exactly once on end-of-stream / read error but are
NOT disposed at all on timeout. -/
theorem C6_amended :
    ∀ ds : List (List Nat),
      runIter (ds.map ReadEvent.chunk ++ [ReadEvent.done]) = (ds, 1, true) ∧
      runIter (ds.map ReadEvent.chunk ++ [ReadEvent.readError]) = (ds, 1, true) ∧
      runIter (ds.map ReadEvent.chunk ++ [ReadEvent.timeout]) = (ds, 0, true) := by
  intro ds
  induction ds with
  | nil => exact ⟨rfl, rfl, rfl⟩
  | cons d t ih =>
      refine ⟨?_, ?_, ?_⟩ <;>
        simp only [List.map_cons, List.cons_append, runIter, List.append_eq,
          ih.1, ih.2.1, ih.2.2]

/-! ## data.py: CookieManager (lines 128-221)

`CookieManager` holds two dicts of credential entries,
`cf_clearances : {cf_id: {"cf_clearance": value, "expires": int}}` and
`puids : {user_id: {"puid": value, "expires": int}}`.  Both families have
the same shape, abstracted as `TokenInfo` (the `"cf_clearance"`/`"puid"`
field is `value`).  A field can be missing from the inner dict
(`info.get(...)` returns `None`), hence the `Option`s. -/

structure TokenInfo where
  value : Option String
  expires : Option Int
deriving DecidableEq

/-- One credential dict (`cf_clearances` or `puids`), as an association
list with unique keys (a Python dict). -/
abbrev Store := List (String × TokenInfo)

/-- Python `del d[k]`. -/
def eraseKey (k : String) (s : Store) : Store :=
  s.filter (fun p => p.1 != k)

/-- Embeds `CookieManager.get_puid` (data.py lines 137-148) and
`CookieManager.get_cf_clearance` (lines 177-189), which are identical up
to field names: if the key is absent return `None`; if the entry has an
`expires` field strictly smaller than the current time, delete the entry
(in memory only) and return `None`; otherwise return the entry's value
field.  Returns the result together with the updated dict. -/
def getToken (now : Int) (k : String) (s : Store) : Option String × Store :=
  match lookupKey k s with
  | none => (none, s)
  | some info =>
      match info.expires with
      | some e => if e < now then (none, eraseKey k s) else (info.value, s)
      | none => (info.value, s)

/-- An arbitrary choice sequence standing for `random.choice`: at round
`i` the key at index `choose i % len` is picked.  Every probability-zero
detail of `random.choice` is abstracted into universal quantification
over `choose`. -/
def constChoice : Nat → Nat := fun _ => 0

/-- The recursive random-valid-token selection: the `CookieManager.puid`
property (data.py lines 150-158) and the `CookieManager.cf_clearance`
property (lines 167-175), which are identical up to field names.
If the dict is empty return `""`; otherwise pick a random key, call
`getToken`, and if the result is truthy return it, else recurse on the
(possibly shrunk) dict.  The Python recursion need not terminate, so the
embedding takes a `fuel` argument; `none` means the fuel was exhausted
before the recursion returned. -/
def randomValidAux (now : Int) (choose : Nat → Nat) :
    Nat → Nat → Store → Option String
  | _, 0, _ => none
  | _, _ + 1, [] => some ""
  | round, fuel + 1, a :: t =>
      let k := ((a :: t).get
        ⟨choose round % (a :: t).length, Nat.mod_lt _ (Nat.succ_pos _)⟩).1
      match getToken now k (a :: t) with
      | (some v, s') =>
          if v != "" then some v
          else randomValidAux now choose (round + 1) fuel s'
      | (none, s') => randomValidAux now choose (round + 1) fuel s'

/-- Validity of an entry at time `now` as the code enforces it: the code
only evicts/refuses entries with `expires < now` (strict), so an entry is
served whenever `¬ (expires < now)` or it has no `expires` field. -/
def validAt (now : Int) (info : TokenInfo) : Bool :=
  match info.expires with
  | some e => !(decide (e < now))
  | none => true

/-- Validity as claim C4 states it: a token with `expiresAt ≤ now` must
never be returned, i.e. only entries with `now < expires` count as valid. -/
def claimValidAt (now : Int) (info : TokenInfo) : Bool :=
  match info.expires with
  | some e => decide (now < e)
  | none => true

/-- The store holds an entry whose value field is `v` and which is valid
(in the code's strict-inequality sense) at time `now`. -/
def storeHasValidValue (now : Int) (v : String) (s : Store) : Bool :=
  s.any (fun p => p.2.value == some v && validAt now p.2)

/-- Every entry of the store carries its token value field
(`info.get("puid")` / `info.get("cf_clearance")` is not `None`). -/
def allValuesPresent (s : Store) : Bool :=
  s.all (fun p => p.2.value.isSome)

/-- Every entry of the store carries a non-empty token value field. -/
def allValuesNonEmpty (s : Store) : Bool :=
  s.all (fun p => match p.2.value with | some v => v != "" | none => false)

theorem lookupKey_mem {β : Type} (k : String) (v : β) :
    ∀ s : List (String × β), lookupKey k s = some v → (k, v) ∈ s := by
  intro s
  induction s with
  | nil => intro h; simp [lookupKey] at h
  | cons p t ih =>
      intro h
      by_cases hp : p.1 = k
      · rw [lookupKey, if_pos hp] at h
        cases h
        obtain ⟨a, b⟩ := p
        subst hp
        exact List.mem_cons_self _ _
      · rw [lookupKey, if_neg hp] at h
        exact List.mem_cons_of_mem _ (ih h)

theorem lookupKey_isSome_of_mem {β : Type} (k : String) :
    ∀ s : List (String × β), k ∈ s.map Prod.fst → (lookupKey k s).isSome := by
  intro s
  induction s with
  | nil => intro h; simp at h
  | cons p t ih =>
      intro h
      by_cases hp : p.1 = k
      · rw [lookupKey, if_pos hp]; rfl
      · rw [lookupKey, if_neg hp]
        apply ih
        rcases List.mem_map.mp h with ⟨q, hq, hqk⟩
        rcases List.mem_cons.mp hq with hq1 | hq2
        · exact absurd (hq1 ▸ hqk) hp
        · exact List.mem_map.mpr ⟨q, hq2, hqk⟩

theorem eraseKey_subset (k : String) (s : Store) :
    ∀ p, p ∈ eraseKey k s → p ∈ s := by
  intro p hp
  exact (List.mem_filter.mp hp).1

theorem eraseKey_length_lt (k : String) :
    ∀ s : Store, k ∈ s.map Prod.fst → (eraseKey k s).length < s.length := by
  intro s
  induction s with
  | nil => intro h; simp at h
  | cons p t ih =>
      intro h
      by_cases hp : p.1 = k
      · have : eraseKey k (p :: t) = eraseKey k t := by
          simp [eraseKey, List.filter, hp]
        rw [this]
        exact Nat.lt_succ_of_le (List.length_filter_le _ t)
      · have hk : k ∈ t.map Prod.fst := by
          rcases List.mem_map.mp h with ⟨q, hq, hqk⟩
          rcases List.mem_cons.mp hq with hq1 | hq2
          · exact absurd (hq1 ▸ hqk) hp
          · exact List.mem_map.mpr ⟨q, hq2, hqk⟩
        have hbne : (p.1 != k) = true := by simp [hp]
        have : eraseKey k (p :: t) = p :: eraseKey k t := by
          simp [eraseKey, List.filter, hbne]
        rw [this]
        exact Nat.succ_lt_succ (ih hk)

theorem storeHasValidValue_mono (now : Int) (v : String) (s s' : Store)
    (hsub : ∀ p, p ∈ s' → p ∈ s) :
    storeHasValidValue now v s' = true → storeHasValidValue now v s = true := by
  intro h
  rcases List.any_eq_true.mp h with ⟨p, hp, hcheck⟩
  exact List.any_eq_true.mpr ⟨p, hsub p hp, hcheck⟩

/-- Soundness of the recursive selection: any non-empty string it returns
is the value field of an entry of the starting store that the code
considers valid (not strictly expired) at time `now`. -/
theorem randomValidAux_sound (now : Int) (choose : Nat → Nat) :
    ∀ (fuel round : Nat) (s : Store) (v : String),
      randomValidAux now choose round fuel s = some v → v ≠ "" →
      storeHasValidValue now v s = true := by
  intro fuel
  induction fuel with
  | zero => intro round s v h; simp [randomValidAux] at h
  | succ f ih =>
      intro round s v h hv
      match s with
      | [] =>
          rw [randomValidAux] at h
          cases h
          exact absurd rfl hv
      | a :: t =>
          rw [randomValidAux] at h
          set k := ((a :: t).get
            ⟨choose round % (a :: t).length, Nat.mod_lt _ (Nat.succ_pos _)⟩).1 with hk
          rcases hl : lookupKey k (a :: t) with _ | info
          · have hg : getToken now k (a :: t) = (none, a :: t) := by
              simp [getToken, hl]
            simp only [hg] at h
            exact ih (round + 1) _ v h hv
          · have hmem : (k, info) ∈ a :: t := lookupKey_mem k info _ hl
            have hvalid : validAt now info = true →
                info.value = some v → storeHasValidValue now v (a :: t) = true := by
              intro h1 h2
              refine List.any_eq_true.mpr ⟨(k, info), hmem, ?_⟩
              simp [h2, h1]
            have hkeep : ∀ v' : String, info.value = some v' →
                getToken now k (a :: t) = (some v', a :: t) →
                storeHasValidValue now v (a :: t) = true := by
              intro v' hval hg
              simp only [hg] at h
              by_cases hne : v' = ""
              · rw [hne] at h
                simp only [show ("" != "") = false from rfl, if_false] at h
                exact ih (round + 1) _ v h hv
              · rw [if_pos (by simpa using hne)] at h
                cases h
                refine hvalid ?_ hval
                have hg2 := hg
                simp only [getToken, hl] at hg2
                rcases he : info.expires with _ | e
                · simp [validAt, he]
                · simp only [he] at hg2
                  by_cases hlt : e < now
                  · rw [if_pos hlt] at hg2
                    simp at hg2
                  · simp [validAt, he, hlt]
            rcases he : info.expires with _ | e
            · rcases hval : info.value with _ | v'
              · have hg : getToken now k (a :: t) = (none, a :: t) := by
                  simp [getToken, hl, he, hval]
                simp only [hg] at h
                exact ih (round + 1) _ v h hv
              · exact hkeep v' hval (by simp [getToken, hl, he, hval])
            · by_cases hlt : e < now
              · have hg : getToken now k (a :: t) = (none, eraseKey k (a :: t)) := by
                  simp [getToken, hl, he, hlt]
                simp only [hg] at h
                have := ih (round + 1) _ v h hv
                exact storeHasValidValue_mono now v _ _ (eraseKey_subset k _) this
              · rcases hval : info.value with _ | v'
                · have hg : getToken now k (a :: t) = (none, a :: t) := by
                    simp [getToken, hl, he, hlt, hval]
                  simp only [hg] at h
                  exact ih (round + 1) _ v h hv
                · exact hkeep v' hval (by simp [getToken, hl, he, hlt, hval])

/-- Termination of the selection when every entry carries a non-empty
value: fuel `s.length + 1` always suffices, because every recursive call
follows a deletion.  Stated with slack (`s.length < n`) for the
induction. -/
theorem randomValidAux_total (now : Int) (choose : Nat → Nat) :
    ∀ (n : Nat) (s : Store), s.length < n → allValuesNonEmpty s = true →
      ∀ round, randomValidAux now choose round n s ≠ none := by
  intro n
  induction n with
  | zero => intro s h; omega
  | succ m ih =>
      intro s hlen hvals round
      match s with
      | [] => rw [randomValidAux]; simp
      | a :: t =>
          rw [randomValidAux]
          set idx : Fin (a :: t).length :=
            ⟨choose round % (a :: t).length, Nat.mod_lt _ (Nat.succ_pos _)⟩ with hidx
          set k := ((a :: t).get idx).1 with hk
          have hkmem : k ∈ (a :: t).map Prod.fst :=
            List.mem_map.mpr ⟨(a :: t).get idx, (a :: t).get_mem _ _, rfl⟩
          have hsome := lookupKey_isSome_of_mem k (a :: t) hkmem
          rcases hl : lookupKey k (a :: t) with _ | info
          · rw [hl] at hsome; simp at hsome
          · have hmem : (k, info) ∈ a :: t := lookupKey_mem k info _ hl
            have hval : ∃ v, info.value = some v ∧ v ≠ "" := by
              have := List.all_eq_true.mp hvals (k, info) hmem
              rcases hv : info.value with _ | v
              · rw [hv] at this; simp at this
              · exact ⟨v, rfl, by rw [hv] at this; simpa using this⟩
            rcases hval with ⟨v, hv, hne⟩
            rcases he : info.expires with _ | e
            · have hg : getToken now k (a :: t) = (some v, a :: t) := by
                simp [getToken, hl, he, hv]
              simp only [hg]
              rw [if_pos (by simpa using hne)]
              simp
            · by_cases hlt : e < now
              · have hg : getToken now k (a :: t) = (none, eraseKey k (a :: t)) := by
                  simp [getToken, hl, he, hlt]
                simp only [hg]
                have herase : (eraseKey k (a :: t)).length < (a :: t).length :=
                  eraseKey_length_lt k (a :: t) hkmem
                have hvals' : allValuesNonEmpty (eraseKey k (a :: t)) = true := by
                  refine List.all_eq_true.mpr ?_
                  intro p hp
                  exact List.all_eq_true.mp hvals p (eraseKey_subset k _ p hp)
                exact ih _ (by omega) hvals' (round + 1)
              · have hg : getToken now k (a :: t) = (some v, a :: t) := by
                  simp [getToken, hl, he, hlt, hv]
                simp only [hg]
                rw [if_pos (by simpa using hne)]
                simp

/-- Claim C4, counterexample.  The claim says the selection never returns
a token whose `expiresAt ≤ now`.  At `now = 5`, a store holding one
clearance whose `expires` is exactly `5` (so `expiresAt ≤ now`) is
returned anyway, because the code evicts only on the strict comparison
`expires < time.time()` (data.py lines 144, 185):
`claimValidAt 5 ⟨some "tok", some 5⟩ = false` says the claim considers
this token invalid, yet the selection returns it. -/
theorem C4_counterexample :
    randomValidAux 5 constChoice 0 2 [("k", ⟨some "tok", some 5⟩)] = some "tok" ∧
      claimValidAt 5 ⟨some "tok", some 5⟩ = false := by
  decide

/-- Claim C4, amended: the selection never returns a token that is
strictly expired (`expiresAt < now`); any non-empty returned value is the
value of an entry of the store with `¬ (expiresAt < now)`; and a store
holding only one clearance token with `expiresAt = now - 1` yields the
empty string (the entry is evicted and the then-empty store returns `""`). -/
theorem C4_amended :
    (∀ (now : Int) (choose : Nat → Nat) (fuel round : Nat) (s : Store) (v : String),
        randomValidAux now choose round fuel s = some v → v ≠ "" →
        storeHasValidValue now v s = true) ∧
      randomValidAux 5 constChoice 0 2 [("k", ⟨some "x", some 4⟩)] = some "" := by
  constructor
  · intro now choose fuel round s v h hv
    exact randomValidAux_sound now choose fuel round s v h hv
  · decide

/-- Witness for C4: at `now = 5` the singleton store with a token expiring
at `9` makes the selection return `"tok"`, and the amended theorem then
certifies that `"tok"` is the value of a currently valid entry. -/
theorem C4_witness :
    storeHasValidValue 5 "tok" [("k", ⟨some "tok", some 9⟩)] = true :=
  C4_amended.1 5 constChoice 2 0 [("k", ⟨some "tok", some 9⟩)] "tok"
    (by decide) (by decide)

/-- Claim C10, counterexample.  The claim says the recursion terminates
for every store in which each entry carries its token value field.  The
store `[("u", {value: "", expires: none})]` carries its value field
(`allValuesPresent` is true), yet the recursion never terminates: the
entry is not expired, so nothing is ever deleted, and the returned `""`
is falsy, so `puid`/`cf_clearance` recurses on the unchanged store
forever.  Fuel `length + 1 = 2` — the bound the claim's own argument
implies — is exhausted, and so is any larger fuel (shown at 50). -/
theorem C10_counterexample :
    allValuesPresent [("u", ⟨some "", none⟩)] = true ∧
      randomValidAux 0 constChoice 0 2 [("u", ⟨some "", none⟩)] = none ∧
      randomValidAux 0 constChoice 0 50 [("u", ⟨some "", none⟩)] = none := by
  decide

/-- Claim C10, amended: the recursion terminates for every store state in
which each stored entry carries a NON-EMPTY token value field; each
recursive call then occurs only after an expired entry has been deleted,
strictly decreasing the size of the token map, so fuel `size + 1`
suffices for every choice sequence. -/
theorem C10_amended :
    ∀ (now : Int) (choose : Nat → Nat) (round : Nat) (s : Store),
      allValuesNonEmpty s = true →
      randomValidAux now choose round (s.length + 1) s ≠ none := by
  intro now choose round s hvals
  exact randomValidAux_total now choose (s.length + 1) s (Nat.lt_succ_self _)
    hvals round

/-- Witness for C10: a concrete one-entry store with a non-empty value
terminates within fuel 2. -/
theorem C10_witness :
    randomValidAux 0 constChoice 0 2 [("a", ⟨some "v", none⟩)] ≠ none :=
  C10_amended 0 constChoice 0 [("a", ⟨some "v", none⟩)] (by decide)

/-! ## data.py: CookieManager persistence (lines 128-221)

`CookieManager.save` (lines 218-220) rewrites the whole in-memory
document to the cookies file.  The durable file is modelled as a second
copy of the document (`disk`); `save` is `disk := mem`.  The mutating
operations `save_puid` (lines 160-165), `save_cf_clearance` (191-200) and
`delete_cf_clearance` (202-210) call `save`; the lazy eviction inside
`get_puid`/`get_cf_clearance` does not. -/

/-- The in-memory credential document: the two dicts of `CookieManager`. -/
structure CookieManager where
  cf_clearances : Store
  puids : Store
deriving DecidableEq

/-- A `CookieManager` together with the durable document on disk. -/
structure CMState where
  mem : CookieManager
  disk : CookieManager
deriving DecidableEq

/-- Embeds `CookieManager.save` (data.py lines 218-220): write the whole
in-memory document to the file. -/
def saveDoc (st : CMState) : CMState := { st with disk := st.mem }

/-- Python single-character `str.split(sep)` on a character list. -/
def splitOnChar (c : Char) : List Char → List (List Char)
  | [] => [[]]
  | a :: t =>
      let r := splitOnChar c t
      if a = c then [] :: r
      else
        match r with
        | h :: tl => (a :: h) :: tl
        | [] => [[a]]

/-- Python `str.split(sep)` for a one-character separator. -/
def pySplit (s : String) (c : Char) : List String :=
  (splitOnChar c s.data).map String.mk

/-- Python `int(s)` restricted to the decimal digit strings the
credential wire formats carry; `none` models the raised `ValueError` on
anything unparsable. -/
def parseNat? (s : List Char) : Option Nat :=
  if s = [] then none
  else
    s.foldl
      (fun acc c =>
        match acc with
        | none => none
        | some n => if c.isDigit then some (n * 10 + (c.toNat - 48)) else none)
      (some 0)

/-- Python dict assignment `d[k] = info`: replace the existing binding or
append a new one. -/
def upsert (k : String) (info : TokenInfo) (s : Store) : Store :=
  if (lookupKey k s).isSome then
    s.map (fun p => if p.1 = k then (k, info) else p)
  else s ++ [(k, info)]

/-- Embeds `CookieManager.get_puid` at the persistent-state level: lazy eviction
touches only the in-memory dict, `save` is never called. -/
def get_puid_s (now : Int) (uid : String) (st : CMState) :
    Option String × CMState :=
  let r := getToken now uid st.mem.puids
  (r.1, { st with mem := { st.mem with puids := r.2 } })

/-- Embeds `CookieManager.get_cf_clearance` at the persistent-state level. -/
def get_cf_clearance_s (now : Int) (cfId : String) (st : CMState) :
    Option String × CMState :=
  let r := getToken now cfId st.mem.cf_clearances
  (r.1, { st with mem := { st.mem with cf_clearances := r.2 } })

/-- Embeds `CookieManager.save_puid` (data.py lines 160-165):
`[user_id, token] = puid.split(":")`, `expires = int(token.split("-")[0])
+ 7*24*60*60`, upsert, then `save()`.  `none` models the exception raised
on a malformed credential. -/
def save_puid_s (puid : String) (st : CMState) : Option CMState :=
  match pySplit puid ':' with
  | [userId, token] =>
      match parseNat? ((pySplit token '-').headD "").data with
      | some t0 =>
          let expires : Int := (t0 : Int) + 7 * 24 * 60 * 60
          let newPuids := upsert userId ⟨some puid, some expires⟩ st.mem.puids
          let mem' := { st.mem with puids := newPuids }
          some (saveDoc { st with mem := mem' })
      | none => none
  | _ => none

/-- Embeds `CookieManager.save_cf_clearance` (data.py lines 191-200): a falsy
clearance is ignored; otherwise `[cf_id, expires, _, _, _, _] =
cf_clearance.split("-")`, `expires = int(expires) + 30*60`, upsert, then
`save()`. -/
def save_cf_clearance_s (cf : String) (st : CMState) : Option CMState :=
  if cf != "" then
    match pySplit cf '-' with
    | [cfId, expiresField, _, _, _, _] =>
        match parseNat? expiresField.data with
        | some e =>
            let newCf := upsert cfId ⟨some cf, some ((e : Int) + 30 * 60)⟩ st.mem.cf_clearances
            let mem' := { st.mem with cf_clearances := newCf }
            some (saveDoc { st with mem := mem' })
        | none => none
    | _ => none
  else some st

/-- Embeds `CookieManager.delete_cf_clearance` (data.py lines 202-210): a falsy
clearance (or an id not present) returns `False` without saving; a
present id is deleted and `save()` runs. -/
def delete_cf_clearance_s (cf : String) (st : CMState) :
    Option (Bool × CMState) :=
  if cf != "" then
    match pySplit cf '-' with
    | [cfId, _, _, _, _, _] =>
        if (lookupKey cfId st.mem.cf_clearances).isSome then
          let newCf := eraseKey cfId st.mem.cf_clearances
          let mem' := { st.mem with cf_clearances := newCf }
          some (true, saveDoc { st with mem := mem' })
        else some (false, st)
    | _ => none
  else some (false, st)

/-- Claim C8, counterexample.  The claim says every mutation of the
in-memory document — including the lazy eviction performed during
selection — rewrites the whole document to durable storage.  Starting
from a synchronized state whose single puid entry expired at time `0`,
reading it at time `1` evicts the entry from memory but writes nothing:
afterwards the in-memory document and the persisted document differ. -/
theorem C8_counterexample :
    (get_puid_s 1 "u"
        ⟨⟨[], [("u", ⟨some "p", some 0⟩)]⟩, ⟨[], [("u", ⟨some "p", some 0⟩)]⟩⟩).2.mem ≠
      (get_puid_s 1 "u"
        ⟨⟨[], [("u", ⟨some "p", some 0⟩)]⟩, ⟨[], [("u", ⟨some "p", some 0⟩)]⟩⟩).2.disk ∧
    (get_puid_s 1 "u"
        ⟨⟨[], [("u", ⟨some "p", some 0⟩)]⟩, ⟨[], [("u", ⟨some "p", some 0⟩)]⟩⟩).2.mem.puids = [] := by
  decide

/-- Claim C8, amended: the explicit mutating operations (`save_puid`,
`save_cf_clearance` on a truthy credential, and a deleting
`delete_cf_clearance`) rewrite the whole document in full, so persisted =
in-memory after them; but the lazy eviction performed during selection
mutates only the in-memory document and never writes, so the persisted
document is unchanged (and may disagree with memory) until the next
save/delete. -/
theorem C8_amended :
    (∀ (p : String) (st st' : CMState),
        save_puid_s p st = some st' → st'.disk = st'.mem) ∧
    (∀ (c : String) (st st' : CMState),
        save_cf_clearance_s c st = some st' → c ≠ "" → st'.disk = st'.mem) ∧
    (∀ (c : String) (st : CMState) (b : Bool) (st' : CMState),
        delete_cf_clearance_s c st = some (b, st') →
        (b = true → st'.disk = st'.mem) ∧ (b = false → st' = st)) ∧
    (∀ (now : Int) (uid : String) (st : CMState),
        ((get_puid_s now uid st).2).disk = st.disk) ∧
    (∀ (now : Int) (cfId : String) (st : CMState),
        ((get_cf_clearance_s now cfId st).2).disk = st.disk) := by
  refine ⟨?_, ?_, ?_, ?_, ?_⟩
  · intro p st st' h
    unfold save_puid_s at h
    split at h
    · split at h
      · cases h; rfl
      · cases h
    · cases h
  · intro c st st' h hc
    unfold save_cf_clearance_s at h
    rw [if_pos (by simpa using hc)] at h
    split at h
    · split at h
      · cases h; rfl
      · cases h
    · cases h
  · intro c st b st' h
    unfold delete_cf_clearance_s at h
    by_cases hc : c = ""
    · rw [if_neg (by simp [hc])] at h
      cases h
      exact ⟨fun hb => Bool.noConfusion hb, fun _ => rfl⟩
    · rw [if_pos (by simpa using hc)] at h
      split at h
      · split at h
        · cases h
          exact ⟨fun _ => rfl, fun hb => Bool.noConfusion hb⟩
        · cases h
          exact ⟨fun hb => Bool.noConfusion hb, fun _ => rfl⟩
      · cases h
  · intro now uid st; rfl
  · intro now cfId st; rfl

/-- Witness for C8: saving the concrete puid `"u:10-x"` into the empty
synchronized state produces a state whose persisted document equals the
in-memory document. -/
theorem C8_witness :
    save_puid_s "u:10-x" ⟨⟨[], []⟩, ⟨[], []⟩⟩ =
      some ⟨⟨[], [("u", ⟨some "u:10-x", some 604810⟩)]⟩,
            ⟨[], [("u", ⟨some "u:10-x", some 604810⟩)]⟩⟩ ∧
    (⟨⟨[], [("u", ⟨some "u:10-x", some 604810⟩)]⟩,
      ⟨[], [("u", ⟨some "u:10-x", some 604810⟩)]⟩⟩ : CMState).disk =
      (⟨⟨[], [("u", ⟨some "u:10-x", some 604810⟩)]⟩,
        ⟨[], [("u", ⟨some "u:10-x", some 604810⟩)]⟩⟩ : CMState).mem :=
  ⟨by decide, C8_amended.1 "u:10-x" ⟨⟨[], []⟩, ⟨[], []⟩⟩ _ (by decide)⟩

/-! ## session.py: ChatSession status flags and pool selection

A `ChatSession` carries two independent boolean flags (session.py lines
51-52): `available` (set by `set_status`, queried by `get_status`) and
`running`.  `SessionManager.get_sessions` (lines 291-297) filters on
both. -/

/-- The two status flags of a `ChatSession`. -/
structure SessionState where
  available : Bool
  running : Bool
deriving DecidableEq

/-- Embeds `SessionManager.get_sessions` (session.py lines 291-297): the
sessions with `await session.get_status() and not session.running`. -/
def get_sessions (l : List SessionState) : List SessionState :=
  l.filter (fun s => s.available && !s.running)

/-- The update `fetch` applies to `running` on entry (session.py
lines 203-206): `if cookies.__len__(): self.running = True`. -/
def fetch_enter_running (cookies : List (String × String)) (running : Bool) : Bool :=
  if cookies.length ≠ 0 then true else running

/-- The update `_call_api` applies to `running` before issuing the fetch
(session.py lines 236-240): `if session_token: self.running = True`
(Python truthiness), nothing otherwise. -/
def call_api_enter_running (sessionToken : Option String) (running : Bool) : Bool :=
  if truthyStr sessionToken then true else running

/-- The value of the `running` flag for the whole in-flight interval of a
request executed through `_call_api`: `_call_api`'s update followed by
`fetch`'s update; `_call_api` calls `fetch` without a `cookies` argument
(session.py lines 241-247), so `fetch` sees the default `{}`.  The flag
is reset only after the response has been consumed (`self.running =
False` after the yield, line 219). -/
def runningDuringFlight (sessionToken : Option String) (running0 : Bool) : Bool :=
  fetch_enter_running [] (call_api_enter_running sessionToken running0)

/-- Claim C3, counterexample.  The claim says the context's busy
indicator is set for the whole in-flight interval of EVERY request
execution.  For a request carrying no session token, executed on a ready
context (`running = false`), the `running` flag stays `false` for the
whole in-flight interval: neither `_call_api` (which only sets it under
`if session_token:`) nor `fetch` (which only sets it when given cookies,
and `_call_api` passes none) ever sets it, so the pool can select the
same context again while the request is in flight. -/
theorem C3_counterexample :
    runningDuringFlight none false = false := by
  decide

/-- Claim C3, amended: the pool's selection only returns contexts that
are available and not busy, and the busy indicator is set for the
in-flight interval exactly when a (truthy) session token is attached or
the context was already busy; in particular a token-less request leaves
the context selectable while in flight. -/
theorem C3_amended :
    (∀ (l : List SessionState) (s : SessionState),
        s ∈ get_sessions l → s.available = true ∧ s.running = false) ∧
    (∀ (tok : Option String) (r0 : Bool),
        runningDuringFlight tok r0 = (truthyStr tok || r0)) := by
  constructor
  · intro l s hs
    have := (List.mem_filter.mp hs).2
    constructor
    · exact (Bool.and_eq_true_iff.mp this).1
    · have hr := (Bool.and_eq_true_iff.mp this).2
      cases hsr : s.running
      · rfl
      · rw [hsr] at hr; cases hr
  · intro tok r0
    unfold runningDuringFlight fetch_enter_running call_api_enter_running
    cases htok : truthyStr tok <;> simp

/-- Witness for C3: the singleton pool holding one ready, idle context
returns it from `get_sessions`, and it is indeed available and not busy. -/
theorem C3_witness :
    (⟨true, false⟩ : SessionState).available = true ∧
      (⟨true, false⟩ : SessionState).running = false :=
  C3_amended.1 [⟨true, false⟩] ⟨true, false⟩ (by decide)

/-! ## session.py: SessionManager.call_api retry policy (lines 308-347)

The pool issues the request on a freshly selected context, inspects the
status, and yields / retries:
* status 403, first attempt: nothing is yielded from this attempt; after
  the context manager exits, `call_api` recurses once with `first=False`
  and yields that result;
* status 403, not first attempt: the status is rewritten to 499 and
  yielded;
* any other status: yielded unchanged.
`pool_call_api` folds this over the statuses the successively selected
contexts would yield (one list entry per `_call_api` attempt); the result
is the status the caller sees (`none` only when the attempt list is
exhausted, which never happens in the running system since every attempt
yields a status). -/

def pool_call_api : List Nat → Bool → Option Nat
  | [], _ => none
  | s :: rest, first =>
      if s = 403 then
        if first then pool_call_api rest false
        else some 499
      else some s

/-- Claim C2, confirmed: on a first-attempt 403 exactly one retry is
performed with `first=False` and the caller receives the retry's result
(never some intermediate 403); a 403 on the retry is rewritten to 499;
every non-403 response is yielded unchanged; the result never depends on
anything beyond the first two attempts. -/
theorem C2_theorem :
    (∀ rest : List Nat, pool_call_api (403 :: rest) true = pool_call_api rest false) ∧
    (∀ rest : List Nat, pool_call_api (403 :: rest) false = some 499) ∧
    (∀ (s : Nat) (rest : List Nat) (first : Bool),
        s ≠ 403 → pool_call_api (s :: rest) first = some s) ∧
    (∀ sts : List Nat, pool_call_api sts true ≠ some 403) ∧
    (∀ (s1 s2 : Nat) (rest : List Nat),
        pool_call_api (s1 :: s2 :: rest) true = pool_call_api [s1, s2] true) := by
  refine ⟨?_, ?_, ?_, ?_, ?_⟩
  · intro rest
    simp [pool_call_api]
  · intro rest
    simp [pool_call_api]
  · intro s rest first hs
    simp [pool_call_api, hs]
  · intro sts
    match sts with
    | [] => simp [pool_call_api]
    | s :: rest =>
        by_cases hs : s = 403
        · subst hs
          rw [pool_call_api, if_pos rfl]
          simp only [if_pos rfl]
          match rest with
          | [] => simp [pool_call_api]
          | s2 :: rest2 =>
              by_cases hs2 : s2 = 403
              · subst hs2
                simp [pool_call_api]
              · simp [pool_call_api, hs2]
        · simp [pool_call_api, hs]
  · intro s1 s2 rest
    by_cases h1 : s1 = 403
    · subst h1
      by_cases h2 : s2 = 403
      · subst h2
        simp [pool_call_api]
      · simp [pool_call_api, h2]
    · simp [pool_call_api, h1]

/-- Witness for C2: a 200 on the first attempt is yielded unchanged. -/
theorem C2_witness :
    pool_call_api [200] true = some 200 :=
  C2_theorem.2.2.1 200 [] true (by decide)

/-! ## session.py: ChatSession._call_api (lines 223-271) and
StreamResponse.wait_for_headers (data.py lines 104-125)

The behaviour of the external browser environment while `_call_api`
prepares and issues the fetch and waits for headers is summed up by a
`PwOutcome`:
* `ok status headers body` – the fetch produced a response handle and the
  two `response.evaluate` calls in `wait_for_headers` returned the status
  and headers;
* `fetchFault` – a playwright error was raised directly inside
  `_call_api`'s `try` block (while setting cookies or evaluating the
  fetch expressions), i.e. before or outside `wait_for_headers`;
* `headerFault` – a playwright `Error` was raised inside
  `wait_for_headers`'s `evaluate` calls; `wait_for_headers` catches it
  and raises `StreamResponseException("Fetch Error, Please try again
  later")` instead (data.py lines 110-114);
* `headerUnknownFault` – any other exception there, re-raised as
  `StreamResponseException("Unknown Error")` (lines 115-116);
* `responseNone` – the response handle is falsy, so `wait_for_headers`
  raises `StreamResponseException("response is None")` (lines 117-118).
-/

inductive PwOutcome where
  | ok (status : Nat) (headers : List (String × String)) (body : List Nat)
  | fetchFault
  | headerFault
  | headerUnknownFault
  | responseNone
deriving DecidableEq

/-- The exceptions that can escape the fetch pipeline.  `_call_api`'s
handler catches exactly `playwrightError` (session.py line 269);
`StreamResponseException` is a distinct class (data.py lines 17-18) and is
not caught by it. -/
inductive ApiError where
  | playwrightError
  | streamResponseException (msg : String)
deriving DecidableEq

/-- Issuing the fetch and waiting for headers: `_call_api`'s cookie
set-up and `fetch`'s `evaluate_handle` calls followed by
`StreamResponse.wait_for_headers`.  A `fetchFault` escapes as a raw
playwright error; the faults inside `wait_for_headers` escape as
`StreamResponseException`s with the source's messages. -/
def fetch_pipeline : PwOutcome → Except ApiError StreamResponse
  | PwOutcome.ok status headers body =>
      Except.ok { status := status, headers := headers,
                  controller := some (), response := some body }
  | PwOutcome.fetchFault => Except.error ApiError.playwrightError
  | PwOutcome.headerFault =>
      Except.error (ApiError.streamResponseException "Fetch Error, Please try again later")
  | PwOutcome.headerUnknownFault =>
      Except.error (ApiError.streamResponseException "Unknown Error")
  | PwOutcome.responseNone =>
      Except.error (ApiError.streamResponseException "response is None")

/-- The rotated-session-cookie header block of `_call_api` (session.py
lines 263-267): when a session token was supplied and
`get_cookie(SESSION_TOKEN_KEY)` returns a truthy value, a `set-cookie`
header is installed on the response.  `rotated` is what `get_cookie`
returns (`""` when the cookie is absent, session.py lines 100-106). -/
def setHeader (hs : List (String × String)) (k v : String) : List (String × String) :=
  if (lookupKey k hs).isSome then
    hs.map (fun p => if p.1 = k then (k, v) else p)
  else hs ++ [(k, v)]

def cookieHeaderLine (t : String) : String :=
  "__Secure-next-auth.session-token=" ++ t ++ "; path=/; max-age=31536000; secure; httponly"

def withSetCookie (sessionToken : Option String) (rotated : String)
    (resp : StreamResponse) : StreamResponse :=
  if truthyStr sessionToken then
    if rotated != "" then
      { resp with headers := setHeader resp.headers "set-cookie" (cookieHeaderLine rotated) }
    else resp
  else resp

/-- Embeds `ChatSession._call_api` (session.py lines 223-271).  Arguments:
the environment outcome, the request url, the session token passed in,
what `get_cookie` would return for the rotated session cookie, and the
context's `available` flag (what `get_status()` returns).  The result is
either a raised exception or `(yielded response, cf-refresh scheduled,
full restart scheduled)` where the two booleans record whether
`get_cf_cookies(wait=True)` resp. `init_page(restart=True)` was scheduled
with `asyncio.ensure_future`:
* a raw playwright error is caught and `StreamResponse(status=403)` is
  yielded (lines 269-271);
* a `StreamResponseException` propagates to the caller uncaught;
* status 403: the cached clearance is invalidated and a cookie refresh is
  scheduled; the response falls through to the set-cookie block and is
  yielded as-is (lines 248-253);
* status 429 on a url containing `/api/auth/session`: the status is
  rewritten to 403, a full restart is scheduled only if `get_status()` is
  true, and the response is yielded, skipping the set-cookie block
  (lines 254-262);
* anything else: the set-cookie block runs and the response is yielded. -/
def call_api_model (o : PwOutcome) (url : String) (sessionToken : Option String)
    (rotated : String) (available : Bool) :
    Except ApiError (StreamResponse × Bool × Bool) :=
  match fetch_pipeline o with
  | Except.error ApiError.playwrightError =>
      Except.ok ({ status := 403, headers := [], controller := none, response := none },
        false, false)
  | Except.error e => Except.error e
  | Except.ok resp =>
      if resp.status = 403 then
        Except.ok (withSetCookie sessionToken rotated resp, true, false)
      else if resp.status = 429 ∧ strContains url "/api/auth/session" = true then
        Except.ok ({ resp with status := 403 }, false, available)
      else
        Except.ok (withSetCookie sessionToken rotated resp, false, false)

/-- Holds when `call_api_model` produced a yielded response rather than an escaping
exception. -/
def exceptIsOk {ε α : Type} : Except ε α → Bool
  | Except.ok _ => true
  | Except.error _ => false

instance {ε α : Type} [DecidableEq ε] [DecidableEq α] : DecidableEq (Except ε α) :=
  fun a b =>
    match a, b with
    | Except.ok x, Except.ok y =>
        if h : x = y then isTrue (by rw [h])
        else isFalse (by intro he; cases he; exact h rfl)
    | Except.error x, Except.error y =>
        if h : x = y then isTrue (by rw [h])
        else isFalse (by intro he; cases he; exact h rfl)
    | Except.ok _, Except.error _ => isFalse (by intro he; cases he)
    | Except.error _, Except.ok _ => isFalse (by intro he; cases he)

/-- Claim C1, counterexample.  The claim says every transport/environment
fault while issuing the fetch or waiting for headers is surfaced as a
status-403 StreamResponse and never propagates as an exception.  But a
playwright `Error` raised while waiting for headers is wrapped by
`wait_for_headers` into a `StreamResponseException`, which is NOT a
`PlaywrightError` and therefore escapes `_call_api`'s
`except PlaywrightError` handler: the caller gets a raised exception, not
a 403 response. -/
theorem C1_counterexample :
    call_api_model PwOutcome.headerFault "https://chat.openai.com/api/models" none "" true
        = Except.error (ApiError.streamResponseException "Fetch Error, Please try again later") ∧
      exceptIsOk (call_api_model PwOutcome.headerFault
        "https://chat.openai.com/api/models" none "" true) = false := by
  exact ⟨rfl, rfl⟩

/-- Claim C1, amended: a playwright error raised directly inside
`_call_api`'s try block (e.g. while setting cookies or issuing the fetch)
is caught and surfaced as `StreamResponse(status=403)` with no exception
crossing the context boundary; but every fault occurring inside
`wait_for_headers` (a playwright error during the header `evaluate`s, an
unknown error there, or a falsy response handle) is wrapped into a
`StreamResponseException`, which does propagate past the context
boundary. -/
theorem C1_amended :
    ∀ (url : String) (tok : Option String) (rot : String) (avail : Bool),
      call_api_model PwOutcome.fetchFault url tok rot avail
          = Except.ok ({ status := 403, headers := [], controller := none, response := none },
              false, false) ∧
      call_api_model PwOutcome.headerFault url tok rot avail
          = Except.error (ApiError.streamResponseException "Fetch Error, Please try again later") ∧
      call_api_model PwOutcome.headerUnknownFault url tok rot avail
          = Except.error (ApiError.streamResponseException "Unknown Error") ∧
      call_api_model PwOutcome.responseNone url tok rot avail
          = Except.error (ApiError.streamResponseException "response is None") := by
  intro url tok rot avail
  exact ⟨rfl, rfl, rfl, rfl⟩

/-- Claim C7, counterexample.  The claim says a 429 on the
identity/session endpoint always triggers an asynchronous full context
restart.  On a context whose `available` flag is false (e.g. flipped by a
concurrently scheduled clearance refresh after selection), the status is
rewritten to 403 and yielded, but NO restart is scheduled, because the
restart is guarded by `if await self.get_status():` (session.py
lines 259-260): the result differs from the claim-predicted one, whose
restart component is `true`. -/
theorem C7_counterexample :
    call_api_model (PwOutcome.ok 429 [] []) "https://chat.openai.com/api/auth/session"
        none "" false
        = Except.ok ({ status := 403, headers := [], controller := some (), response := some [] },
            false, false) ∧
      call_api_model (PwOutcome.ok 429 [] []) "https://chat.openai.com/api/auth/session"
        none "" false
        ≠ Except.ok ({ status := 403, headers := [], controller := some (), response := some [] },
            false, true) := by
  exact ⟨by decide, by decide⟩

/-- Claim C7, amended: on an upstream 429 whose request url contains
`/api/auth/session`, the yielded status is rewritten to 403 and the
response is still yielded (never raised), but the asynchronous full
context restart is scheduled only when the context's `available` flag is
currently true. -/
theorem C7_amended :
    ∀ (hd : List (String × String)) (body : List Nat) (url : String)
      (tok : Option String) (rot : String) (avail : Bool),
      strContains url "/api/auth/session" = true →
      call_api_model (PwOutcome.ok 429 hd body) url tok rot avail
        = Except.ok ({ status := 403, headers := hd, controller := some (), response := some body },
            false, avail) := by
  intro hd body url tok rot avail hurl
  simp [call_api_model, fetch_pipeline, hurl]

/-- Witness for C7: on an available context, the 429 on the session
endpoint is rewritten to 403 and the restart is scheduled. -/
theorem C7_witness :
    call_api_model (PwOutcome.ok 429 [] []) "https://chat.openai.com/api/auth/session"
        none "" true
      = Except.ok ({ status := 403, headers := [], controller := some (), response := some [] },
          false, true) :=
  C7_amended [] [] "https://chat.openai.com/api/auth/session" none "" true (by decide)

/-- The fault-normalized response: `StreamResponse(status=403)`
(session.py line 271), i.e. default headers `{}`, controller `None`,
response `None`. -/
def errResp : StreamResponse :=
  { status := 403, headers := [], controller := none, response := none }

/-- Claim C9, confirmed: the response constructed by the fault handler
(`StreamResponse(status=403)`, with no underlying response or controller
handle — exactly what `call_api_model` yields on a caught playwright
fault) supports no body or cancellation operation: `read`, `text`,
`json`, `iter_chunked` and `stop` each raise a `StreamResponseException`
synchronously. -/
theorem C9_theorem :
    call_api_model PwOutcome.fetchFault "https://chat.openai.com/" none "" true
        = Except.ok (errResp, false, false) ∧
      errResp.read = Except.error "Cannot read, response is None" ∧
      errResp.text = Except.error "Cannot read, response is None" ∧
      errResp.json = Except.error "Cannot read, response is None" ∧
      errResp.iter_chunked = Except.error "response is None" ∧
      errResp.stop = Except.error "controller is None" := by
  exact ⟨rfl, rfl, rfl, rfl, rfl, rfl⟩

/-! ## session.py: SessionManager.call_api token attachment (lines 319-335)

Before delegating to `_call_api`, the pool decides whether to keep the
supplied session token:
```
if (not session_token or headers.get("authorization")
        or not (url_split.path.endswith(("/", "session"))
                or url_split.path.startswith(("/_next/data", "/c/",
                                              "/api/auth/callback/auth0")))):
    session_token = None
```
The url path component (`urlsplit(url).path`) is taken as the input. -/

/-- The path condition of the attach rule, verbatim from session.py
lines 326-329. -/
def pathAllowed (path : String) : Bool :=
  pyEndsWith path "/" || pyEndsWith path "session" ||
    pyStartsWith path "/_next/data" || pyStartsWith path "/c/" ||
    pyStartsWith path "/api/auth/callback/auth0"

/-- The effective token passed on to `_call_api` after the attach rule. -/
def effectiveToken (sessionToken : Option String)
    (headers : List (String × String)) (path : String) : Option String :=
  if !(truthyStr sessionToken) || truthyStr (lookupKey "authorization" headers)
      || !(pathAllowed path) then
    none
  else sessionToken

/-- The token is actually attached (installed as the session-identity
cookie) iff the effective token is truthy, since `_call_api` begins with
`if session_token:` (session.py line 236). -/
def tokenAttached (sessionToken : Option String)
    (headers : List (String × String)) (path : String) : Bool :=
  truthyStr (effectiveToken sessionToken headers path)

/-- The attachment condition exactly as claim C5 states it: a token is
supplied, the headers contain no authorization entry at all, and the path
rule holds. -/
def specAttachOrig (sessionToken : Option String)
    (headers : List (String × String)) (path : String) : Bool :=
  sessionToken.isSome && (lookupKey "authorization" headers).isNone &&
    (pyEndsWith path "/" || pyEndsWith path "session" ||
      pyStartsWith path "/_next/data" || pyStartsWith path "/c/" ||
      pyStartsWith path "/api/auth/callback/auth0")

/-- The attachment condition with Python truthiness, as the amended claim
states it: a non-empty token is supplied, the authorization entry is
absent or empty, and the path rule holds. -/
def specAttachAmended (sessionToken : Option String)
    (headers : List (String × String)) (path : String) : Bool :=
  truthyStr sessionToken && !(truthyStr (lookupKey "authorization" headers)) &&
    (pyEndsWith path "/" || pyEndsWith path "session" ||
      pyStartsWith path "/_next/data" || pyStartsWith path "/c/" ||
      pyStartsWith path "/api/auth/callback/auth0")

/-- Claim C5, counterexample.  The claim's "if and only if" fails in both
directions on Python truthiness: (1) with headers containing the
authorization entry `("authorization", "")` the headers DO contain an
authorization entry, so the claim says the token is dropped, but
`headers.get("authorization")` is falsy and the code attaches it;
(2) a supplied-but-empty token counts as supplied for the claim, but
`not session_token` is true in the code and the token is dropped. -/
theorem C5_counterexample :
    (tokenAttached (some "tok") [("authorization", "")] "/c/123" = true ∧
        specAttachOrig (some "tok") [("authorization", "")] "/c/123" = false) ∧
      (tokenAttached (some "") [] "/c/123" = false ∧
        specAttachOrig (some "") [] "/c/123" = true) := by
  decide

/-- Claim C5, amended: the identity token is attached if and only if a
non-empty token is supplied, the headers' authorization entry is absent
or empty, and the URL path ends with `/` or `session` or starts with one
of `/_next/data`, `/c/`, `/api/auth/callback/auth0`. -/
theorem C5_amended :
    ∀ (tok : Option String) (headers : List (String × String)) (path : String),
      tokenAttached tok headers path = specAttachAmended tok headers path := by
  intro tok headers path
  unfold tokenAttached effectiveToken specAttachAmended pathAllowed
  cases htok : truthyStr tok <;>
    cases hh : truthyStr (lookupKey "authorization" headers) <;>
      cases hp : pyEndsWith path "/" || pyEndsWith path "session" ||
          pyStartsWith path "/_next/data" || pyStartsWith path "/c/" ||
          pyStartsWith path "/api/auth/callback/auth0" <;>
        simp_all [truthyStr]

end UnlimitedChat
